import Mathlib

/-!
Shallow embedding of the call-lifecycle and media-pipeline core of the
asterisk-to-openai realtime bridge (config.js, openai.js, asterisk.js).
JavaScript runtime values are modelled explicitly: an absent-or-empty string
is falsy (`jsTruthyStr`), a JS number is either finite or not (`JsNum`),
maps are association lists, and the effectful steps of the orchestrator are
reified as lists of effects so that the teardown/idempotence/ordering
properties of the source can be stated and proved.
-/

namespace AstOpenAI

/-- JS truthiness of a possibly-absent string: `undefined`, `null` and the
empty string are falsy; any other string is truthy. -/
def jsTruthyStr : Option String → Bool
  | some s => !(s = "")
  | none => false

/-- `a || d` for a possibly-absent string `a` and a string default `d`. -/
def jsOrStr (o : Option String) (d : String) : String :=
  match o with
  | some s => if s = "" then d else s
  | none => d

/-- ASCII lower-casing of one character, as `String.prototype.toLowerCase`
acts on the ASCII range. -/
def charToLower (c : Char) : Char :=
  if 'A' ≤ c && c ≤ 'Z' then Char.ofNat (c.toNat + 32) else c

/-- ASCII `toLowerCase`.  (The source additionally applies `normalize('NFKC')`;
NFKC is the identity on the ASCII strings modelled here.) -/
def jsToLower (s : String) : String :=
  String.mk (s.toList.map charToLower)

/-- Does the character list `s` start with `p`? -/
def listStartsWith : List Char → List Char → Bool
  | _, [] => true
  | [], _ :: _ => false
  | a :: s, b :: p => a = b && listStartsWith s p

/-- Does the character list contain `p` as a contiguous run? -/
def listContainsSub (p : List Char) : List Char → Bool
  | [] => p.isEmpty
  | c :: t => listStartsWith (c :: t) p || listContainsSub p t

/-- JS `txt.includes(pat)` (substring test; the empty pattern matches). -/
def strIncludes (txt pat : String) : Bool :=
  listContainsSub pat.toList txt.toList

/-- `String.prototype.trim()`: strip leading and trailing whitespace. -/
def jsTrim (s : String) : String :=
  String.mk (((s.toList.dropWhile Char.isWhitespace).reverse.dropWhile
    Char.isWhitespace).reverse)

/-! ## config.js: VAD settings and turn-detection normalization -/

/-- A JavaScript number as seen by `Number.isFinite`: either a finite value
(modelled as a rational) or a non-finite one (`NaN`, `±Infinity`). -/
inductive JsNum
  | fin (q : ℚ)
  | nonfin
deriving DecidableEq, Repr

/-- The `num(v, def)` guard inside `normalizeTurnDetection`:
`Number.isFinite(Number(v)) ? n : def`. -/
def numOr : JsNum → ℚ → ℚ
  | .fin q, _ => q
  | .nonfin, d => d

/-- The slice of `config` that `normalizeTurnDetection` reads
(`VAD_TYPE`, `VAD_THRESHOLD`, `VAD_PREFIX_PADDING_MS`,
`VAD_SILENCE_DURATION_MS`). -/
structure VadConfig where
  vadType : Option String
  vadThreshold : JsNum
  vadPrefixPaddingMs : JsNum
  vadSilenceDurationMs : JsNum
deriving DecidableEq, Repr

/-- The two shapes `normalizeTurnDetection` can return: a bare
`semantic_vad` object, or a `server_vad` object carrying the three knobs. -/
inductive TurnDetection
  | semanticVad
  | serverVad (threshold prefixPaddingMs silenceDurationMs : ℚ)
deriving DecidableEq, Repr

/-- openai.js `normalizeTurnDetection()`: lower-case the configured type,
accept only `server_vad` / `semantic_vad` (anything else falls back to
`server_vad`); `semantic_vad` carries no knobs, `server_vad` carries the
three numeric knobs guarded through `numOr` with defaults 0.6 / 200 / 600. -/
def normalizeTurnDetection (c : VadConfig) : TurnDetection :=
  let rawType := jsToLower (jsOrStr c.vadType "server_vad")
  let ty := if rawType = "server_vad" || rawType = "semantic_vad" then rawType else "server_vad"
  if ty = "semantic_vad" then
    TurnDetection.semanticVad
  else
    TurnDetection.serverVad (numOr c.vadThreshold (0.6 : ℚ))
      (numOr c.vadPrefixPaddingMs (200 : ℚ))
      (numOr c.vadSilenceDurationMs (600 : ℚ))

/-! ## openai.js: transcript sink -/

/-- The runtime value stored in `sipMap.get(channelId).callerId`: a string,
an object with `number` / `name` / `id` fields, or something falsy. -/
inductive CallerIdVal
  | strv (s : String)
  | objv (number name id : Option String)
  | undef
deriving DecidableEq, Repr

/-- First truthy string of a JS `a || b || c` chain, if any. -/
def firstTruthy : List (Option String) → Option String
  | [] => none
  | o :: rest => if jsTruthyStr o then o else firstTruthy rest

/-- `cid.trim().replace(/[^\d+]/g, '')`: keep only decimal digits and `+`. -/
def sanitizeCaller (s : String) : String :=
  String.mk ((jsTrim s).toList.filter (fun c => c.isDigit || c = '+'))

/-- The string the stored caller id contributes before sanitizing: object
values fall back through `number || name || id`, everything falsy
contributes `''`. -/
def rawCallerString : Option CallerIdVal → String
  | some (.strv s) => s
  | some (.objv n nm i) => (firstTruthy [n, nm, i]).getD ""
  | some .undef => ""
  | none => ""

/-- openai.js `safeCallerId`: resolve the stored caller id, strip everything
outside `[0-9+]`, and fall back to `"unknown"` when nothing is left. -/
def safeCallerId (callerId : Option CallerIdVal) : String :=
  if sanitizeCaller (rawCallerString callerId) = "" then "unknown"
  else sanitizeCaller (rawCallerString callerId)

/-- `String(n).padStart(2, '0')` for the month/day components. -/
def pad2 (n : Nat) : String :=
  if n < 10 then "0" ++ toString n else toString n

/-- openai.js `ensureDailyDir`: `RECORDINGS_DIR || '/var/spool/asterisk/monitor'`
joined with the zero-padded local date (`m` is the 1-based month, i.e.
`getMonth() + 1` in the source). -/
def ensureDailyDirPath (recordingsDir : Option String) (y m d : Nat) : String :=
  jsOrStr recordingsDir "/var/spool/asterisk/monitor"
    ++ "/" ++ toString y ++ "/" ++ pad2 m ++ "/" ++ pad2 d

/-- openai.js `transcriptPath`: daily directory plus
`conversation-<safeCallerId>-<channelId>.txt`. -/
def transcriptPath (recordingsDir : Option String) (y m d : Nat)
    (callerId : Option CallerIdVal) (channelId : String) : String :=
  ensureDailyDirPath recordingsDir y m d
    ++ "/conversation-" ++ safeCallerId callerId ++ "-" ++ channelId ++ ".txt"

/-- openai.js `appendTranscript`: skip empty / whitespace-only texts
(`!text || !text.trim()`), otherwise append one line
`<ISO8601> <SPEAKER>: <text>\n`.  Returns the appended line, if any. -/
def appendTranscriptText (isoTimestamp who text : String) : Option String :=
  if text = "" || jsTrim text = "" then none
  else some (isoTimestamp ++ " " ++ who ++ ": " ++ text ++ "\n")

/-! ## openai.js: the per-call event demultiplexer `processMessage` -/

/-- The `item` field of a `conversation.item.created` payload (only the two
fields the source reads). -/
structure Item where
  id : Option String
  role : Option String
deriving DecidableEq, Repr

/-- The AI-RT server events `processMessage` switches on.  Audio deltas
carry the already base64-decoded payload bytes (the source decodes with
`Buffer.from(delta, 'base64')`); `other` covers every unhandled type. -/
inductive OAIEvent
  | sessionCreated
  | sessionUpdated
  | conversationItemCreated (item : Option Item)
  | responseCreated
  | responseAudioDelta (delta : Option (List Nat))
  | responseAudioTranscriptDelta (delta : Option String)
  | responseAudioTranscriptDone (transcript : Option String)
  | inputTranscriptionDelta (delta : Option String)
  | inputTranscriptionCompleted (transcript : Option String)
  | responseAudioDone
  | errorEvent
  | other (ty : String)
deriving DecidableEq, Repr

/-- The closure-local per-connection state of `startOpenAIWebSocket` that
`processMessage` reads and mutates. -/
structure OAIState where
  isResponseActive : Bool := false
  totalDeltaBytes : Nat := 0
  loggedDeltaBytes : Nat := 0
  segmentCount : Nat := 0
  itemRoles : List (String × String) := []
  lastUserItemId : Option String := none
  terminateRequested : Bool := false
  terminateReason : Option String := none
  terminationWatchdogStarted : Bool := false
deriving DecidableEq, Repr

/-- The externally visible calls `processMessage` makes, in order. -/
inductive OAIAction
  | logWarn (msg : String)
  | logError (msg : String)
  | stopPlayback
  | sendRtpPacket (bytes : List Nat)
  | appendTranscriptLine (who text : String)
  | armTerminationWatchdog (ms : Nat)
  | requestRedirect (phrase : String)
  | finalizeAndTerminate
  | closeWs
deriving DecidableEq, Repr

/-- The slice of `config` that `processMessage` reads.  The phrase lists are
already lower-cased and NFKC-normalized by config.js; `terminationWatchdogMs`
mirrors `Number(config.TERMINATION_WATCHDOG_MS || 8000)` (the key is absent
from config.js, hence `Option`). -/
structure OAIConfig where
  agentTerminatePhrases : List String := []
  redirectionPhrases : List String := []
  silencePaddingMs : Nat := 100
  terminationWatchdogMs : Option Nat := none
deriving DecidableEq, Repr

/-- Ambient per-call context for a `processMessage` run: the config, the
call id, whether `sipMap.has(channelId)`, whether the closure-local
`streamHandler` is set, and whether an `onRedirectRequest` hook was passed. -/
structure OAICtx where
  cfg : OAIConfig := {}
  channelId : String := "C1"
  sipMapHasChannel : Bool := true
  hasStreamHandler : Bool := true
  hasRedirectCallback : Bool := true
deriving DecidableEq, Repr

/-- Failure oracle for the external calls the handler makes; a `true` flag
means that call throws when reached.  (The throw is caught by the
`try/catch` wrapping the whole handler body.) -/
structure ExtFail where
  stopPlaybackThrows : Bool := false
  sendRtpThrows : Bool := false
deriving DecidableEq, Repr

/-- `Math.ceil(silenceDurationMs / 20)` packets of 160 bytes of `0x7F` ulaw
silence, where `silenceDurationMs = config.SILENCE_PADDING_MS || 100`. -/
def silencePrefixBytes (silencePaddingMs : Nat) : List Nat :=
  let silenceDurationMs := if silencePaddingMs = 0 then 100 else silencePaddingMs
  List.replicate ((silenceDurationMs + 19) / 20 * 160) 0x7f

/-- The body of openai.js `processMessage` (the statements inside its
`try`).  Returns the updated closure state, the external calls made in
order, and whether the body threw (all throws come from the external calls
named in `ExtFail`; state mutations made before the throw persist, which
the returned state reflects).  Log-only branches (`session.created`,
transcript deltas, the default case) are elided except where a log is the
branch's sole observable act. -/
def processMessageRaw (fail : ExtFail) (ctx : OAICtx) (st : OAIState) :
    OAIEvent → OAIState × List OAIAction × Bool
  | .sessionCreated => (st, [], false)
  | .sessionUpdated => (st, [], false)
  | .conversationItemCreated item =>
    match item with
    | none => (st, [], false)
    | some it =>
      if jsTruthyStr it.id && jsTruthyStr it.role then
        let st1 := { st with itemRoles := (it.id.getD "", it.role.getD "") :: st.itemRoles }
        if it.role = some "user" then
          let st2 := { st1 with lastUserItemId := it.id }
          if ctx.hasStreamHandler then
            (st2, [OAIAction.stopPlayback], fail.stopPlaybackThrows)
          else (st2, [], false)
        else (st1, [], false)
      else (st, [], false)
  | .responseCreated => ({ st with isResponseActive := true }, [], false)
  | .responseAudioDelta delta =>
    match delta with
    | none => (st, [], false)
    | some bytes =>
      if 0 < bytes.length && !(bytes.all (fun b => b = 0x7f)) then
        let total := st.totalDeltaBytes + bytes.length
        let st1 := { st with totalDeltaBytes := total, segmentCount := st.segmentCount + 1 }
        let st2 :=
          if 40000 ≤ total - st1.loggedDeltaBytes || 100 ≤ st1.segmentCount then
            { st1 with loggedDeltaBytes := total, segmentCount := 0 }
          else st1
        let packetBuffer :=
          if total = bytes.length then silencePrefixBytes ctx.cfg.silencePaddingMs ++ bytes
          else bytes
        if ctx.sipMapHasChannel && ctx.hasStreamHandler then
          (st2, [OAIAction.sendRtpPacket packetBuffer], fail.sendRtpThrows)
        else (st2, [], false)
      else
        (st, [OAIAction.logWarn "Received empty or silent delta"], false)
  | .responseAudioTranscriptDelta _ => (st, [], false)
  | .responseAudioTranscriptDone transcript =>
    match transcript with
    | none => (st, [], false)
    | some t =>
      if t = "" then (st, [], false)
      else
        let txt := jsToLower t
        let acts0 := [OAIAction.appendTranscriptLine "ASSISTANT" t]
        let stepTerm : OAIState × List OAIAction :=
          if !ctx.cfg.agentTerminatePhrases.isEmpty then
            match ctx.cfg.agentTerminatePhrases.find? (fun p => strIncludes txt p) with
            | some p =>
              let stA := { st with terminateRequested := true, terminateReason := some p }
              if !stA.terminationWatchdogStarted then
                ({ stA with terminationWatchdogStarted := true },
                 [OAIAction.armTerminationWatchdog (ctx.cfg.terminationWatchdogMs.getD 8000)])
              else (stA, [])
            | none => (st, [])
          else (st, [])
        let actsRedir : List OAIAction :=
          if !ctx.cfg.redirectionPhrases.isEmpty then
            match ctx.cfg.redirectionPhrases.find? (fun p => strIncludes txt p) with
            | some p => if ctx.hasRedirectCallback then [OAIAction.requestRedirect p] else []
            | none => []
          else []
        (stepTerm.1, acts0 ++ stepTerm.2 ++ actsRedir, false)
  | .inputTranscriptionDelta _ => (st, [], false)
  | .inputTranscriptionCompleted transcript =>
    match transcript with
    | none => (st, [], false)
    | some t =>
      if t = "" then (st, [], false)
      else (st, [OAIAction.appendTranscriptLine "USER" t], false)
  | .responseAudioDone =>
    let st1 := { st with isResponseActive := false, loggedDeltaBytes := 0, segmentCount := 0,
                         itemRoles := [], lastUserItemId := none }
    if st1.terminateRequested then (st1, [OAIAction.finalizeAndTerminate], false)
    else (st1, [], false)
  | .errorEvent =>
    let acts := [OAIAction.logError "OpenAI error", OAIAction.closeWs]
    if st.terminateRequested then (st, acts ++ [OAIAction.finalizeAndTerminate], false)
    else (st, acts, false)
  | .other _ => (st, [], false)

/-- openai.js `processMessage`: the body runs inside `try { ... } catch (e)
{ logger.error(...) }`, so a throw is absorbed and logged and the handler
always returns normally. -/
def processMessage (fail : ExtFail) (ctx : OAICtx) (st : OAIState) (ev : OAIEvent) :
    OAIState × List OAIAction :=
  match processMessageRaw fail ctx st ev with
  | (st1, acts, true) => (st1, acts ++ [OAIAction.logError "Error processing message"])
  | (st1, acts, false) => (st1, acts)

/-- The message pump loop body: `for (let i = 0; i < maxMessages &&
messageQueue.length > 0; i++) await processMessage(messageQueue.shift())`.
Returns final state, remaining queue, the events processed (in order), and
the concatenated actions. -/
def pumpStep (fail : ExtFail) (ctx : OAICtx) :
    Nat → OAIState → List OAIEvent →
    OAIState × List OAIEvent × List OAIEvent × List OAIAction
  | 0, st, q => (st, q, [], [])
  | _ + 1, st, [] => (st, [], [], [])
  | n + 1, st, ev :: rest =>
    let r1 := processMessage fail ctx st ev
    let r2 := pumpStep fail ctx n r1.1 rest
    (r2.1, r2.2.1, ev :: r2.2.2.1, r1.2 ++ r2.2.2.2)

/-- One 25 ms tick of the `setInterval` pump: drain up to 5 queued events. -/
def pumpTick (fail : ExtFail) (ctx : OAICtx) (st : OAIState) (q : List OAIEvent) :
    OAIState × List OAIEvent × List OAIEvent × List OAIAction :=
  pumpStep fail ctx 5 st q

/-- Run a sequence of events through `processMessage`, threading the state
and collecting all actions. -/
def runEvents (fail : ExtFail) (ctx : OAICtx) :
    OAIState → List OAIEvent → OAIState × List OAIAction
  | st, [] => (st, [])
  | st, ev :: rest =>
    let r1 := processMessage fail ctx st ev
    let r2 := runEvents fail ctx r1.1 rest
    (r2.1, r1.2 ++ r2.2)

/-! ## asterisk.js: per-call record, registry state and teardown -/

/-- The stream handler's two outgoing buffers, as read by asterisk.js
(`sh.audioBuffer?.length`, `sh.packetQueue?.length`). -/
structure SenderBuf where
  audioBufferLen : Nat := 0
  packetQueueLen : Nat := 0
deriving DecidableEq, Repr

/-- The per-call record stored in `sipMap` (only the fields asterisk.js
reads are modelled; presence of the ARI `channel` object, the WebSocket and
the stream handler are the truthiness checks the source performs). -/
structure ChData where
  cleaned : Bool := false
  hasCleanupTimer : Bool := false
  hasCallTimeout : Bool := false
  externalChannelId : Option String := none
  streamHandler : Option SenderBuf := none
  ws : Bool := false
  wsClosed : Bool := false
  bridgeId : Option String := none
  hasChannel : Bool := false
  redirecting : Bool := false
  terminateAfterPlayback : Bool := false
  rtpPort : Option Nat := none
  callerId : String := ""
  sipEnded : Bool := false
  extEnded : Bool := false
deriving DecidableEq, Repr

/-- An entry of `extMap` (keyed either by the external channel id, carrying
the owning SIP `channelId`, or by the SIP id, carrying
`externalChannelId`). -/
structure ExtEntry where
  bridgeId : Option String := none
  channelId : Option String := none
  externalChannelId : Option String := none
deriving DecidableEq, Repr

/-- A UDP socket handle from `rtpReceivers` / `rtpSenders`. -/
structure RtpHandle where
  isOpen : Bool := true
deriving DecidableEq, Repr

/-- The process-wide mutable state of state.js / asterisk.js: the call
registry, the external-leg map, the RTP handle maps, the in-flight cleanup
promises, the already-cleaned set and the ignore-late-external-events set. -/
structure CoreState where
  sipMap : List (String × ChData) := []
  extMap : List (String × ExtEntry) := []
  rtpReceivers : List (String × RtpHandle) := []
  rtpSenders : List (String × RtpHandle) := []
  cleanupInFlight : List String := []
  cleanedChannels : List String := []
  ignoreExtEvents : List String := []
deriving DecidableEq, Repr

/-- `map.set(k, v)` on an association list. -/
def alistSet {β : Type} (k : String) (v : β) (m : List (String × β)) :
    List (String × β) :=
  (k, v) :: m.filter (fun kv => !(kv.1 = k))

/-- `map.delete(k)` on an association list. -/
def alistDel {β : Type} (k : String) (m : List (String × β)) :
    List (String × β) :=
  m.filter (fun kv => !(kv.1 = k))

/-- The observable teardown / handoff calls asterisk.js makes, in order. -/
inductive Eff
  | clearCallTimeout
  | streamEnd
  | wsCloseReq
  | extHangup (extId : String)
  | bridgeDestroy (bridgeId : String)
  | sipHangup (channelId : String)
  | rxClose (channelId : String)
  | txClose (channelId : String)
  | releasePort (port : Nat)
  | sendEmail (channelId callerId reason : String)
  | continueDialplanOk (ctx ext : String)
  | continueDialplanFailed (ctx ext : String)
deriving DecidableEq, Repr

/-- Failure oracle for the wrapped teardown steps of `cleanupChannel`; a
`true` flag means that step's external call throws (every such throw is
caught by the step's own `try/catch`). -/
structure CleanupFail where
  streamEndThrows : Bool := false
  wsCloseThrows : Bool := false
  extHangupThrows : Bool := false
  bridgeDestroyThrows : Bool := false
  sipHangupThrows : Bool := false
  rxCloseThrows : Bool := false
  txCloseThrows : Bool := false
  releasePortThrows : Bool := false
  emailThrows : Bool := false
deriving DecidableEq, Repr

/-- `[g x]` for a present option value, `[]` otherwise: the effect of a
teardown step guarded by `if (channelData.field)`. -/
def optEff (g : String → Eff) : Option String → List Eff
  | some x => [g x]
  | none => []

/-- `optEff` for a numeric field (the RTP port). -/
def optEffNat (g : Nat → Eff) : Option Nat → List Eff
  | some x => [g x]
  | none => []

/-- The `try { get; if (h && h.isOpen) { h.isOpen = false; h.close(); }
map.delete(id); } catch { warn }` block shared by receiver and sender
teardown.  Returns the updated map and whether `close()` was called.  When
`close()` throws, the `catch` absorbs it but the `map.delete` that follows
the throwing statement is skipped, so the (now-closed) handle stays in the
map. -/
def closeRtpHandle (closeThrows : Bool) (m : List (String × RtpHandle))
    (k : String) : List (String × RtpHandle) × Bool :=
  match m.lookup k with
  | some h =>
    if h.isOpen then
      if closeThrows then (alistSet k { h with isOpen := false } m, true)
      else (alistDel k m, true)
    else (alistDel k m, false)
  | none => (alistDel k m, false)

/-- The body of asterisk.js `cleanupChannel` (everything after the two
guards): flips `_cleaned`, records the channel in `cleanedChannels`, marks
the external leg as ignore-late-events, then runs the wrapped teardown
steps in source order.  Each step's effect is its call as attempted; a
throwing step is caught locally and the sequence continues.  The
`cleanupPromises` entry is set on entry and deleted in the `finally`, so it
is net unchanged here. -/
def cleanupBody (fail : CleanupFail) (emailEnabled : Bool) (st : CoreState)
    (channelId reason : String) : CoreState × List Eff :=
  let channelData := (st.sipMap.lookup channelId).getD {}
  if channelData.cleaned then
    ({ st with cleanedChannels := channelId :: st.cleanedChannels }, [])
  else
    let cd := { channelData with cleaned := true, hasCleanupTimer := false }
    let ignoreExt := match cd.externalChannelId with
      | some e => e :: st.ignoreExtEvents
      | none => st.ignoreExtEvents
    let e1 := if cd.hasCallTimeout then [Eff.clearCallTimeout] else []
    let e2 := if cd.streamHandler.isSome then [Eff.streamEnd] else []
    let e3 := if !cd.wsClosed && cd.ws then [Eff.wsCloseReq] else []
    let e4 := optEff Eff.extHangup cd.externalChannelId
    let e5 := optEff Eff.bridgeDestroy cd.bridgeId
    let e6 := if !cd.redirecting && cd.hasChannel then [Eff.sipHangup channelId] else []
    let rx := closeRtpHandle fail.rxCloseThrows st.rtpReceivers channelId
    let e7 := if rx.2 then [Eff.rxClose channelId] else []
    let tx := closeRtpHandle fail.txCloseThrows st.rtpSenders channelId
    let e8 := if tx.2 then [Eff.txClose channelId] else []
    let e9 := optEffNat Eff.releasePort cd.rtpPort
    let extm := alistDel channelId (match cd.externalChannelId with
      | some e => alistDel e st.extMap
      | none => st.extMap)
    -- `const fresh = sipMap.get(channelId) || channelData`: at this point the
    -- map holds `cd` (set when `_cleaned` was flipped, deleted only below).
    let fresh := cd
    let e10 := if emailEnabled && !fresh.redirecting then
        [Eff.sendEmail channelId (if fresh.callerId = "" then "unknown" else fresh.callerId) reason]
      else []
    ({ sipMap := alistDel channelId st.sipMap,
       extMap := extm,
       rtpReceivers := rx.1,
       rtpSenders := tx.1,
       cleanupInFlight := st.cleanupInFlight,
       cleanedChannels := channelId :: st.cleanedChannels,
       ignoreExtEvents := ignoreExt },
     e1 ++ e2 ++ e3 ++ e4 ++ e5 ++ e6 ++ e7 ++ e8 ++ e9 ++ e10)

/-- asterisk.js `cleanupChannel`: hard guard on `cleanedChannels`, then the
concurrent-cleanup guard (a caller finding `cleanupPromises.has(channelId)`
awaits the in-flight promise and returns, contributing no effects of its
own), then the body. -/
def cleanupChannel (fail : CleanupFail) (emailEnabled : Bool) (st : CoreState)
    (channelId reason : String) : CoreState × List Eff :=
  if channelId ∈ st.cleanedChannels then (st, [])
  else if channelId ∈ st.cleanupInFlight then (st, [])
  else cleanupBody fail emailEnabled st channelId reason

/-- The redirect-relevant slice of `config`
(`REDIRECTION_QUEUE`, `REDIRECTION_QUEUE_CONTEXT`). -/
structure RedirectCfg where
  redirectionQueue : Option String := none
  redirectionQueueContext : Option String := none
deriving DecidableEq, Repr

/-- The `for (const ctx of tryContexts)` loop of `redirectToQueue`: try
`continueInDialplan` per context, stop at the first success; if every
context fails, hang up the SIP leg as a last resort. -/
def tryContinueContexts (continueOk : String → Bool) (qExt sipChannelId : String) :
    List String → List Eff
  | [] => [Eff.sipHangup sipChannelId]
  | c :: rest =>
    if continueOk c then [Eff.continueDialplanOk c qExt]
    else Eff.continueDialplanFailed c qExt :: tryContinueContexts continueOk qExt sipChannelId rest

/-- asterisk.js `redirectToQueue`: bail out when no queue is configured,
the call is unknown, or a redirect is already in progress; otherwise set
`redirecting`, tear down stream/WS/external-leg/bridge/RTP (each step
wrapped), and continue the SIP leg in the dialplan, trying
`REDIRECTION_QUEUE_CONTEXT` (if truthy) then `ext-queues` then
`from-internal`; hang up the SIP leg only if every context fails. -/
def redirectToQueue (cfg : RedirectCfg) (continueOk : String → Bool)
    (st : CoreState) (sipChannelId : String) : CoreState × List Eff :=
  let qExt := jsTrim (cfg.redirectionQueue.getD "")
  if qExt = "" then (st, [])
  else
    match st.sipMap.lookup sipChannelId with
    | none => (st, [])
    | some data =>
      if data.redirecting then (st, [])
      else
        let d := { data with redirecting := true }
        let e1 := if d.streamHandler.isSome then [Eff.streamEnd] else []
        let e2 := if !d.wsClosed && d.ws then [Eff.wsCloseReq] else []
        let ignoreExt := match d.externalChannelId with
          | some e => e :: st.ignoreExtEvents
          | none => st.ignoreExtEvents
        let e3 := optEff Eff.extHangup d.externalChannelId
        let e4 := optEff Eff.bridgeDestroy d.bridgeId
        let rx := closeRtpHandle false st.rtpReceivers sipChannelId
        let e5 := if rx.2 then [Eff.rxClose sipChannelId] else []
        let tx := closeRtpHandle false st.rtpSenders sipChannelId
        let e6 := if tx.2 then [Eff.txClose sipChannelId] else []
        let e7 := optEffNat Eff.releasePort d.rtpPort
        let tryContexts :=
          (if jsTruthyStr cfg.redirectionQueueContext then
            [cfg.redirectionQueueContext.getD ""] else [])
          ++ ["ext-queues", "from-internal"]
        let e8 := tryContinueContexts continueOk qExt sipChannelId tryContexts
        ({ st with sipMap := alistSet sipChannelId d st.sipMap,
                   rtpReceivers := rx.1, rtpSenders := tx.1,
                   ignoreExtEvents := ignoreExt },
         e1 ++ e2 ++ e3 ++ e4 ++ e5 ++ e6 ++ e7 ++ e8)

/-! ## asterisk.js: leg-end bookkeeping and terminate-after-playback -/

/-- An ARI channel as seen by the event handlers. -/
structure Channel where
  id : String
  name : String
deriving DecidableEq, Repr

/-- `/^UnicastRTP\//.test(name)`. -/
def isExternalMediaChannel (name : String) : Bool :=
  listStartsWith name.toList ("UnicastRTP/".toList)

/-- asterisk.js `resolveSipIdForChannel`: a SIP channel owns itself; an
external-media channel is resolved through `extMap` (a truthy `channelId`
entry) and otherwise by scanning `sipMap` for a matching
`externalChannelId`. -/
def resolveSipIdForChannel (st : CoreState) (ch : Channel) : Option String :=
  if !isExternalMediaChannel ch.name then some ch.id
  else
    let scan := (st.sipMap.find? (fun kv => kv.2.externalChannelId = some ch.id)).map (fun kv => kv.1)
    match st.extMap.lookup ch.id with
    | some entry => if jsTruthyStr entry.channelId then entry.channelId else scan
    | none => scan

/-- What `markChannelEndedAndMaybeCleanup` decides to do: drop the event
(four distinct guard reasons), run `cleanupChannel` immediately, or (re)arm
the grace timer whose expiry runs `cleanupChannel` with the given reason. -/
inductive MarkResult
  | ignoredLateExt
  | ignoredNoOwnerExt
  | unresolvedWarn
  | ignoredAlreadyCleaned
  | ignoredCleanupInProgress
  | cleanupNow (sipId reason : String)
  | graceArmed (sipId : String) (ms : Nat) (reason : String)
deriving DecidableEq, Repr

/-- `Number(process.env.CLEANUP_GRACE_MS || 1500)`. -/
def cleanupGraceMs (env : Option Nat) : Nat := env.getD 1500

/-- asterisk.js `markChannelEndedAndMaybeCleanup`: ignore late external
events and events for cleaned or unknown calls; otherwise set the matching
end-flag, clean immediately when both flags are set (reason
`<sourceEvent>:both-ended`), else clear any previous grace timer and arm a
fresh one whose expiry cleans with reason `<sourceEvent>:grace-timeout`. -/
def markChannelEndedAndMaybeCleanup (graceMs : Nat) (st : CoreState)
    (ch : Channel) (sourceEvent : String) : CoreState × MarkResult :=
  let isExt := isExternalMediaChannel ch.name
  if isExt && ch.id ∈ st.ignoreExtEvents then (st, .ignoredLateExt)
  else
    match resolveSipIdForChannel st ch with
    | none => if isExt then (st, .ignoredNoOwnerExt) else (st, .unresolvedWarn)
    | some sipId =>
      if sipId ∈ st.cleanedChannels then (st, .ignoredAlreadyCleaned)
      else
        let data := (st.sipMap.lookup sipId).getD {}
        if data.cleaned then (st, .ignoredCleanupInProgress)
        else
          let d := if isExt then { data with extEnded := true }
                   else { data with sipEnded := true }
          if d.sipEnded && d.extEnded then
            ({ st with sipMap := alistSet sipId d st.sipMap },
             .cleanupNow sipId (sourceEvent ++ ":both-ended"))
          else
            let d2 := { d with hasCleanupTimer := true }
            ({ st with sipMap := alistSet sipId d2 st.sipMap },
             .graceArmed sipId graceMs (sourceEvent ++ ":grace-timeout"))

/-- `Number(process.env.TERMINATE_FALLBACK_MS || 8000)`. -/
def terminateFallbackMs (env : Option Nat) : Nat := env.getD 8000

/-- How the drain-wait promise inside `terminateAfterPlayback` resolved. -/
inductive WaitOutcome
  | audioFinished (callId : String)
  | fallbackTimeout (ms : Nat)
deriving DecidableEq, Repr

/-- The promise in `terminateAfterPlayback`: the `audioFinished` listener
resolves only on an event whose id equals this call's id; otherwise the
`setTimeout` fallback fires after `TERMINATE_FALLBACK_MS`.  `finishedIds`
are the `audioFinished` ids emitted before the fallback would fire. -/
def resolveTerminateWait (channelId : String) (finishedIds : List String)
    (fallbackMs : Nat) : WaitOutcome :=
  match finishedIds.find? (fun i => i = channelId) with
  | some i => .audioFinished i
  | none => .fallbackTimeout fallbackMs

/-- What `terminateAfterPlayback` does after its guards. -/
inductive TermDecision
  | skippedRedirecting
  | skippedAlreadyCleaned
  | cleanupNow (reason : String)
  | cleanupAfterWait (outcome : WaitOutcome) (reason : String)
deriving DecidableEq, Repr

/-- `isQueueEmpty()` inside `terminateAfterPlayback`: no stream handler
counts as empty; otherwise both the byte buffer and the packet queue must
be empty. -/
def isQueueEmpty (sh : Option SenderBuf) : Bool :=
  match sh with
  | none => true
  | some s => s.audioBufferLen = 0 && s.packetQueueLen = 0

/-- asterisk.js `terminateAfterPlayback`: no-op while redirecting or when
already cleaned; otherwise arm the `terminateAfterPlayback` flag, clean
immediately when the Sender queues are empty, else wait for
`audioFinished` for this call id or the `TERMINATE_FALLBACK_MS` fallback
(whichever first) and then clean.  Cleanup reason is
`assistant-terminate:<phrase>`. -/
def terminateAfterPlayback (cleanedChannels : List String) (data : ChData)
    (channelId phrase : String) (finishedIds : List String)
    (envFallbackMs : Option Nat) : ChData × TermDecision :=
  if data.redirecting then (data, .skippedRedirecting)
  else if data.cleaned || channelId ∈ cleanedChannels then (data, .skippedAlreadyCleaned)
  else
    let d := { data with terminateAfterPlayback := true }
    if isQueueEmpty d.streamHandler then
      (d, .cleanupNow ("assistant-terminate:" ++ phrase))
    else
      (d, .cleanupAfterWait
            (resolveTerminateWait channelId finishedIds (terminateFallbackMs envFallbackMs))
            ("assistant-terminate:" ++ phrase))

/-! ## effect classifiers -/

/-- Is this effect a transcript email? -/
def isEmailEff : Eff → Bool
  | .sendEmail _ _ _ => true
  | _ => false

/-- Is this effect a SIP-leg hangup? -/
def isSipHangupEff : Eff → Bool
  | .sipHangup _ => true
  | _ => false

/-- Number of transcript emails among the effects. -/
def countEmails (l : List Eff) : Nat := (l.filter isEmailEff).length

/-- Is this action a push to the RTP sender? -/
def isSendRtp : OAIAction → Bool
  | .sendRtpPacket _ => true
  | _ => false

/-! ## concrete fixtures used by the closed theorems -/

/-- A representative live call record: external leg `E1`, bridge `B1`, open
WebSocket and stream handler, RTP port 12000, caller `100`. -/
def fixtureCall : ChData :=
  { externalChannelId := some "E1", streamHandler := some {}, ws := true,
    bridgeId := some "B1", hasChannel := true, rtpPort := some 12000,
    callerId := "100" }

/-- Registry state holding exactly the call `C1` of `fixtureCall`, with its
maps and RTP handles populated. -/
def fixtureCore : CoreState :=
  { sipMap := [("C1", fixtureCall)],
    extMap := [("E1", { channelId := some "C1" }), ("C1", { externalChannelId := some "E1" })],
    rtpReceivers := [("C1", {})], rtpSenders := [("C1", {})] }

/-- A per-call AI-RT context configured with the terminate phrase
`goodbye`. -/
def fixtureTermCtx : OAICtx :=
  { cfg := { agentTerminatePhrases := ["goodbye"] } }

/-- `fixtureCall` after a queue handoff has begun (`redirecting` set). -/
def fixtureRedirCall : ChData :=
  { fixtureCall with redirecting := true }

/-- `fixtureCore` with the call already redirecting. -/
def fixtureRedirCore : CoreState :=
  { fixtureCore with sipMap := [("C1", fixtureRedirCall)] }

/-- `fixtureCore` after the SIP leg already ended (`_sipEnded` set). -/
def fixtureSipEndedCore : CoreState :=
  { fixtureCore with sipMap := [("C1", { fixtureCall with sipEnded := true })] }

/-- A VAD config whose type is upper-case `SEMANTIC_VAD` and whose knobs
are all non-finite. -/
def fixtureVadSemantic : VadConfig :=
  { vadType := some "SEMANTIC_VAD", vadThreshold := JsNum.nonfin,
    vadPrefixPaddingMs := JsNum.nonfin, vadSilenceDurationMs := JsNum.nonfin }

/-- A VAD config with an unrecognized type, a finite padding and otherwise
non-finite knobs. -/
def fixtureVadOther : VadConfig :=
  { vadType := some "weird", vadThreshold := JsNum.nonfin,
    vadPrefixPaddingMs := JsNum.fin 250, vadSilenceDurationMs := JsNum.nonfin }

/-! ## helper lemmas -/

theorem lookup_filter_ne {β : Type} (k j : String) (m : List (String × β))
    (h : ¬j = k) :
    (m.filter (fun kv => !(kv.1 = k))).lookup j = m.lookup j := by
  induction m with
  | nil => rfl
  | cons kv t ih =>
    rcases kv with ⟨a, b⟩
    by_cases hk : a = k
    · subst hk
      have hj : (j == a) = false := beq_eq_false_iff_ne.mpr h
      simp [List.filter_cons, List.lookup_cons, hj, ih]
    · by_cases hj : j = a
      · subst hj
        simp [List.filter_cons, hk, List.lookup_cons]
      · have hj2 : (j == a) = false := beq_eq_false_iff_ne.mpr hj
        simp [List.filter_cons, hk, List.lookup_cons, hj2, ih]

theorem lookup_alistDel {β : Type} (k j : String) (m : List (String × β)) :
    (alistDel k m).lookup j = if j = k then none else m.lookup j := by
  by_cases h : j = k
  · subst h
    simp only [if_pos rfl]
    induction m with
    | nil => rfl
    | cons kv t ih =>
      rcases kv with ⟨a, b⟩
      by_cases ha : a = j
      · simpa [alistDel, List.filter_cons, ha] using ih
      · have hj : (j == a) = false := beq_eq_false_iff_ne.mpr (fun hh => ha hh.symm)
        simpa [alistDel, List.filter_cons, ha, List.lookup_cons, hj] using ih
  · rw [if_neg h]
    exact lookup_filter_ne k j m h

theorem lookup_alistSet {β : Type} (k j : String) (v : β) (m : List (String × β)) :
    (alistSet k v m).lookup j = if j = k then some v else m.lookup j := by
  by_cases h : j = k
  · subst h
    simp [alistSet, List.lookup_cons]
  · have hj : (j == k) = false := beq_eq_false_iff_ne.mpr h
    simp only [alistSet, List.lookup_cons, hj, if_neg h]
    exact lookup_filter_ne k j m h

theorem countEmails_append (a b : List Eff) :
    countEmails (a ++ b) = countEmails a + countEmails b := by
  simp [countEmails, List.filter_append]

theorem mem_actions_processMessage {a : OAIAction} {fail : ExtFail} {ctx : OAICtx}
    {st : OAIState} {ev : OAIEvent}
    (h : a ∈ (processMessage fail ctx st ev).2) :
    a ∈ (processMessageRaw fail ctx st ev).2.1 ∨
      a = OAIAction.logError "Error processing message" := by
  rcases hr : processMessageRaw fail ctx st ev with ⟨s1, acts, b⟩
  unfold processMessage at h
  rw [hr] at h
  cases b
  · exact Or.inl h
  · rw [show ((match (s1, acts, true) with
        | (st1, acts, true) => (st1, acts ++ [OAIAction.logError "Error processing message"])
        | (st1, acts, false) => (st1, acts)) : OAIState × List OAIAction).2
        = acts ++ [OAIAction.logError "Error processing message"] from rfl,
      List.mem_append] at h
    rcases h with h | h
    · exact Or.inl h
    · exact Or.inr (by simpa using h)

theorem processMessage_eq_of_not_thrown {fail : ExtFail} {ctx : OAICtx}
    {st : OAIState} {ev : OAIEvent}
    (h : (processMessageRaw fail ctx st ev).2.2 = false) :
    processMessage fail ctx st ev
      = ((processMessageRaw fail ctx st ev).1, (processMessageRaw fail ctx st ev).2.1) := by
  unfold processMessage
  rcases hr : processMessageRaw fail ctx st ev with ⟨s, acts, b⟩
  rw [hr] at h
  cases b
  · rfl
  · exact absurd h (by simp)

theorem appendLine_who_raw {who text : String} {fail : ExtFail} {ctx : OAICtx}
    {st : OAIState} {ev : OAIEvent}
    (h : OAIAction.appendTranscriptLine who text ∈ (processMessageRaw fail ctx st ev).2.1) :
    who = "USER" ∨ who = "ASSISTANT" := by
  cases ev <;> simp only [processMessageRaw] at h <;> (repeat' split at h) <;> simp_all

theorem transcriptDone_matched_raw (fail : ExtFail) (ctx : OAICtx) (st : OAIState)
    (t q : String) (hne : ¬t = "")
    (hnempty : ctx.cfg.agentTerminatePhrases.isEmpty = false)
    (hq : ctx.cfg.agentTerminatePhrases.find? (fun x => strIncludes (jsToLower t) x) = some q) :
    (processMessageRaw fail ctx st (.responseAudioTranscriptDone (some t))).1.terminateRequested = true ∧
    (processMessageRaw fail ctx st (.responseAudioTranscriptDone (some t))).2.2 = false ∧
    ∀ a ∈ (processMessageRaw fail ctx st (.responseAudioTranscriptDone (some t))).2.1,
      a ≠ OAIAction.finalizeAndTerminate := by
  simp only [processMessageRaw, if_neg hne, hnempty, hq, Bool.not_false, if_true]
  refine ⟨?_, trivial, ?_⟩
  · split <;> rfl
  · intro a ha
    repeat' split at ha
    all_goals
      simp only [List.mem_append, List.mem_singleton, List.not_mem_nil, or_false, false_or] at ha
      try rcases ha with ha | ha
      all_goals try rcases ha with ha | ha
      all_goals simp_all

/-! ## claim theorems -/

/-- C8: `normalizeTurnDetection` is total and returns only one of two
shapes: for input type `semantic_vad` (case-insensitive) it returns exactly
the bare semantic-vad object; for `server_vad` or any other/unset input it
returns `server_vad` with `threshold`, `prefix_padding_ms`,
`silence_duration_ms` present as finite numbers, defaulting to 0.6, 200 and
600 when the configured values are not finite numbers. -/
theorem C8_normalize_turn_detection :
    (∀ c : VadConfig, normalizeTurnDetection c = TurnDetection.semanticVad ∨
      ∃ th pp sd, normalizeTurnDetection c = TurnDetection.serverVad th pp sd) ∧
    (∀ c : VadConfig, jsToLower (jsOrStr c.vadType "server_vad") = "semantic_vad" →
      normalizeTurnDetection c = TurnDetection.semanticVad) ∧
    (∀ c : VadConfig, jsToLower (jsOrStr c.vadType "server_vad") ≠ "semantic_vad" →
      normalizeTurnDetection c = TurnDetection.serverVad (numOr c.vadThreshold (0.6 : ℚ))
        (numOr c.vadPrefixPaddingMs (200 : ℚ)) (numOr c.vadSilenceDurationMs (600 : ℚ))) ∧
    (∀ (q d : ℚ), numOr (JsNum.fin q) d = q) ∧
    (∀ d : ℚ, numOr JsNum.nonfin d = d) := by
  refine ⟨?_, ?_, ?_, fun q d => rfl, fun d => rfl⟩
  · intro c
    by_cases h : jsToLower (jsOrStr c.vadType "server_vad") = "semantic_vad"
    · exact Or.inl (by simp [normalizeTurnDetection, h])
    · refine Or.inr ⟨numOr c.vadThreshold (0.6 : ℚ), numOr c.vadPrefixPaddingMs (200 : ℚ),
        numOr c.vadSilenceDurationMs (600 : ℚ), ?_⟩
      by_cases hs : jsToLower (jsOrStr c.vadType "server_vad") = "server_vad" <;>
        simp [normalizeTurnDetection, hs, h]
  · intro c h
    simp [normalizeTurnDetection, h]
  · intro c h
    by_cases hs : jsToLower (jsOrStr c.vadType "server_vad") = "server_vad"
    · simp [normalizeTurnDetection, hs, h]
    · simp [normalizeTurnDetection, hs, h]

/-- Witness for C8 at concrete configs: an upper-case `SEMANTIC_VAD` yields
the bare semantic shape, and an unrecognized type with a non-finite
threshold yields `server_vad` with the defaults. -/
theorem C8_normalize_turn_detection_witness :
    normalizeTurnDetection fixtureVadSemantic = TurnDetection.semanticVad ∧
    normalizeTurnDetection fixtureVadOther
      = TurnDetection.serverVad (0.6 : ℚ) (250 : ℚ) (600 : ℚ) := by
  constructor
  · exact C8_normalize_turn_detection.2.1 fixtureVadSemantic (by decide)
  · have h := C8_normalize_turn_detection.2.2.1 fixtureVadOther (by decide)
    rw [h]; rfl

/-- C9: the transcript file is
`RECORDINGS_DIR/YYYY/MM/DD/conversation-<sanitizedCaller>-<callId>.txt` with
the zero-padded local date; the sanitized caller keeps only `[0-9+]` and is
`unknown` when nothing remains; each appended line is
`ISO8601 SPEAKER: text\n` with SPEAKER always `USER` or `ASSISTANT`; empty
or whitespace-only texts are skipped. -/
theorem C9_transcript_sink :
    (∀ rd y m d cid ch, transcriptPath rd y m d cid ch =
      jsOrStr rd "/var/spool/asterisk/monitor" ++ "/" ++ toString y ++ "/" ++ pad2 m
        ++ "/" ++ pad2 d ++ "/conversation-" ++ safeCallerId cid ++ "-" ++ ch ++ ".txt") ∧
    (∀ cid, safeCallerId cid = "unknown" ∨
      ((safeCallerId cid).toList ≠ [] ∧
       ∀ c ∈ (safeCallerId cid).toList, c.isDigit = true ∨ c = '+')) ∧
    (∀ iso who t, jsTrim t = "" → appendTranscriptText iso who t = none) ∧
    (∀ iso who t, jsTrim t ≠ "" →
      appendTranscriptText iso who t = some (iso ++ " " ++ who ++ ": " ++ t ++ "\n")) ∧
    (∀ fail ctx st ev who text,
      OAIAction.appendTranscriptLine who text ∈ (processMessage fail ctx st ev).2 →
      who = "USER" ∨ who = "ASSISTANT") := by
  refine ⟨fun rd y m d cid ch => rfl, ?_, ?_, ?_, ?_⟩
  · intro cid
    by_cases h : sanitizeCaller (rawCallerString cid) = ""
    · exact Or.inl (by unfold safeCallerId; rw [if_pos h])
    · have hres : safeCallerId cid = sanitizeCaller (rawCallerString cid) := by
        unfold safeCallerId; rw [if_neg h]
      refine Or.inr ⟨?_, ?_⟩
      · intro hnil
        apply h
        rw [hres] at hnil
        unfold sanitizeCaller at hnil ⊢
        rw [show (String.mk ((jsTrim (rawCallerString cid)).toList.filter
              (fun c => c.isDigit || c = '+'))).toList
            = (jsTrim (rawCallerString cid)).toList.filter (fun c => c.isDigit || c = '+')
            from rfl] at hnil
        rw [hnil]
      · intro c hc
        rw [hres] at hc
        unfold sanitizeCaller at hc
        have hmem := List.mem_filter.mp (by exact hc)
        have hb := hmem.2
        simp only [Bool.or_eq_true, decide_eq_true_eq] at hb
        exact hb
  · intro iso who t h
    simp [appendTranscriptText, h]
  · intro iso who t h
    have ht : ¬t = "" := by
      intro h0
      exact h (by rw [h0]; rfl)
    simp [appendTranscriptText, h, ht]
  · intro fail ctx st ev who text h
    rcases mem_actions_processMessage h with h | h
    · exact appendLine_who_raw h
    · exact absurd h (by simp)

/-- Witness for C9 at concrete inputs: a caller string with punctuation is
reduced to `[0-9+]`, a whitespace-only text is skipped, a real text is
formatted as one line, and a `USER` transcription-completed event appends
with speaker `USER`. -/
theorem C9_transcript_sink_witness :
    (safeCallerId (some (CallerIdVal.strv "+48 (22) 123")) = "unknown" ∨
      ((safeCallerId (some (CallerIdVal.strv "+48 (22) 123"))).toList ≠ [] ∧
       ∀ c ∈ (safeCallerId (some (CallerIdVal.strv "+48 (22) 123"))).toList,
         c.isDigit = true ∨ c = '+')) ∧
    appendTranscriptText "T" "USER" "  " = none ∧
    appendTranscriptText "T" "ASSISTANT" "hello" = some "T ASSISTANT: hello\n" ∧
    ("USER" = "USER" ∨ "USER" = "ASSISTANT") := by
  refine ⟨C9_transcript_sink.2.1 _, C9_transcript_sink.2.2.1 _ _ _ (by decide), ?_, ?_⟩
  · exact C9_transcript_sink.2.2.2.1 "T" "ASSISTANT" "hello" (by decide)
  · exact C9_transcript_sink.2.2.2.2 {} {} {}
      (.inputTranscriptionCompleted (some "hi")) "USER" "hi" (by decide)


theorem filter_sendRtp_processMessage (fail : ExtFail) (ctx : OAICtx) (st : OAIState)
    (ev : OAIEvent) :
    (processMessage fail ctx st ev).2.filter isSendRtp
      = (processMessageRaw fail ctx st ev).2.1.filter isSendRtp := by
  unfold processMessage
  rcases hr : processMessageRaw fail ctx st ev with ⟨s, acts, b⟩
  cases b <;> simp [List.filter_append, isSendRtp]

/-- C1: a terminate-phrase match in an assistant transcript only arms the
terminate flag — the transcript handler emits no finalize/cleanup call —
and `terminateAfterPlayback`, the sole entry point to
assistant-terminate cleanup, invokes cleanup only when the Sender queues
are already empty, or after its wait resolved by `audioFinished` for this
call id or by the TERMINATE_FALLBACK_MS fallback (default 8000 ms),
whichever fires first. -/
theorem C1_terminate_defers_cleanup :
    (∀ (fail : ExtFail) (ctx : OAICtx) (st : OAIState) (t p : String),
      p ∈ ctx.cfg.agentTerminatePhrases → strIncludes (jsToLower t) p = true → t ≠ "" →
      (processMessage fail ctx st (.responseAudioTranscriptDone (some t))).1.terminateRequested
          = true ∧
      OAIAction.finalizeAndTerminate ∉
        (processMessage fail ctx st (.responseAudioTranscriptDone (some t))).2) ∧
    (∀ (cleaned : List String) (data : ChData) (cid phrase : String)
        (fins : List String) (env : Option Nat) (r : String),
      (terminateAfterPlayback cleaned data cid phrase fins env).2 = TermDecision.cleanupNow r →
      isQueueEmpty data.streamHandler = true) ∧
    (∀ (cleaned : List String) (data : ChData) (cid phrase : String)
        (fins : List String) (env : Option Nat) (out : WaitOutcome) (r : String),
      (terminateAfterPlayback cleaned data cid phrase fins env).2
          = TermDecision.cleanupAfterWait out r →
      out = WaitOutcome.audioFinished cid ∨
        out = WaitOutcome.fallbackTimeout (terminateFallbackMs env)) ∧
    (∀ (cleaned : List String) (data : ChData) (cid phrase : String)
        (fins : List String) (env : Option Nat),
      data.redirecting = false → data.cleaned = false → cid ∉ cleaned →
      (terminateAfterPlayback cleaned data cid phrase fins env).1.terminateAfterPlayback
        = true) ∧
    terminateFallbackMs none = 8000 := by
  refine ⟨?_, ?_, ?_, ?_, rfl⟩
  · intro fail ctx st t p hp hinc hne
    have hnempty : ctx.cfg.agentTerminatePhrases.isEmpty = false := by
      cases hl : ctx.cfg.agentTerminatePhrases with
      | nil => rw [hl] at hp; exact absurd hp (List.not_mem_nil p)
      | cons a l => rfl
    have hfind : ∃ q, ctx.cfg.agentTerminatePhrases.find?
        (fun x => strIncludes (jsToLower t) x) = some q := by
      cases hq : ctx.cfg.agentTerminatePhrases.find? (fun x => strIncludes (jsToLower t) x) with
      | none => exact absurd hinc (by simpa using List.find?_eq_none.mp hq p hp)
      | some q => exact ⟨q, rfl⟩
    obtain ⟨q, hq⟩ := hfind
    obtain ⟨h1, h2, h3⟩ := transcriptDone_matched_raw fail ctx st t q hne hnempty hq
    rw [processMessage_eq_of_not_thrown h2]
    exact ⟨h1, fun hmem => h3 _ hmem rfl⟩
  · intro cleaned data cid phrase fins env r h
    unfold terminateAfterPlayback at h
    dsimp only at h
    split at h
    · exact absurd h (by simp)
    · split at h
      · exact absurd h (by simp)
      · split at h
        · rename_i hempty
          exact hempty
        · exact absurd h (by simp)
  · intro cleaned data cid phrase fins env out r h
    unfold terminateAfterPlayback at h
    dsimp only at h
    split at h
    · exact absurd h (by simp)
    · split at h
      · exact absurd h (by simp)
      · split at h
        · exact absurd h (by simp)
        · injection h with hout hr
          rw [← hout]
          unfold resolveTerminateWait
          cases hf : fins.find? (fun i => i = cid) with
          | none => exact Or.inr rfl
          | some i =>
            refine Or.inl ?_
            have hi := List.find?_some hf
            simp only [decide_eq_true_eq] at hi
            rw [hi]
  · intro cleaned data cid phrase fins env h1 h2 h3
    unfold terminateAfterPlayback
    rw [if_neg (by simp [h1])]
    rw [if_neg (by simp [h2, h3])]
    dsimp only
    split <;> rfl

/-- Witness for C1: the transcript `"ok goodbye"` matches the configured
phrase `goodbye` and only arms the flag; a call with empty Sender queues
cleans immediately; with a non-empty queue and no `audioFinished` the wait
resolves by the 8000 ms fallback. -/
theorem C1_terminate_defers_cleanup_witness :
    ((processMessage {} fixtureTermCtx {}
        (.responseAudioTranscriptDone (some "ok goodbye"))).1.terminateRequested = true ∧
     OAIAction.finalizeAndTerminate ∉
       (processMessage {} fixtureTermCtx {}
         (.responseAudioTranscriptDone (some "ok goodbye"))).2) ∧
    isQueueEmpty (some {}) = true ∧
    (WaitOutcome.fallbackTimeout 8000 = WaitOutcome.audioFinished "C1" ∨
      WaitOutcome.fallbackTimeout 8000 = WaitOutcome.fallbackTimeout (terminateFallbackMs none)) ∧
    (terminateAfterPlayback [] fixtureCall "C1" "goodbye" [] none).1.terminateAfterPlayback
      = true := by
  refine ⟨?_, ?_, ?_, ?_⟩
  · exact C1_terminate_defers_cleanup.1 {} fixtureTermCtx {} "ok goodbye" "goodbye"
      (by decide) (by decide) (by decide)
  · exact C1_terminate_defers_cleanup.2.1 [] { streamHandler := some {} } "C1" "x" [] none
      "assistant-terminate:x" (by decide)
  · exact C1_terminate_defers_cleanup.2.2.1 ["C2"]
      { streamHandler := some { packetQueueLen := 5 } } "C1" "x" [] none
      (WaitOutcome.fallbackTimeout 8000) "assistant-terminate:x" (by decide)
  · exact C1_terminate_defers_cleanup.2.2.2.1 [] fixtureCall "C1" "goodbye" [] none
      (by decide) (by decide) (by decide)

/-- C5 (amended): deltas that are empty or all-0x7F are skipped and never
pushed; a non-skipped delta is pushed exactly once, and the
SILENCE_PADDING_MS prefix (default 100 ms = 5 packets x 160 bytes of 0x7F)
is prepended exactly when this is the first non-skipped delta of the whole
call (cumulative `totalDeltaBytes` was zero) — not of each response. -/
theorem C5_silence_padding_first_call_delta :
    (∀ (fail : ExtFail) (ctx : OAICtx) (st : OAIState) (bytes : List Nat),
      ctx.sipMapHasChannel = true → ctx.hasStreamHandler = true →
      0 < bytes.length → bytes.all (fun b => b = 0x7f) = false →
      (processMessage fail ctx st (.responseAudioDelta (some bytes))).2.filter isSendRtp
        = [OAIAction.sendRtpPacket (if st.totalDeltaBytes = 0 then
            silencePrefixBytes ctx.cfg.silencePaddingMs ++ bytes else bytes)]) ∧
    (∀ (fail : ExtFail) (ctx : OAICtx) (st : OAIState) (bytes : List Nat),
      bytes.length = 0 ∨ bytes.all (fun b => b = 0x7f) = true →
      (processMessage fail ctx st (.responseAudioDelta (some bytes))).2.filter isSendRtp
        = []) ∧
    silencePrefixBytes 100 = List.replicate (5 * 160) 0x7f := by
  refine ⟨?_, ?_, rfl⟩
  · intro fail ctx st bytes hmap hsh hlen hsil
    rw [filter_sendRtp_processMessage]
    have hcond : (decide (0 < bytes.length) && !bytes.all (fun b => b = 0x7f)) = true := by
      simp [hlen, hsil]
    simp only [processMessageRaw, hcond, if_true, hmap, hsh, Bool.and_self]
    have harith : (st.totalDeltaBytes + bytes.length = bytes.length) ↔ st.totalDeltaBytes = 0 := by
      omega
    by_cases h0 : st.totalDeltaBytes = 0
    · rw [if_pos (harith.mpr h0), if_pos h0]
      simp [isSendRtp]
    · rw [if_neg (fun hh => h0 (harith.mp hh)), if_neg h0]
      simp [isSendRtp]
  · intro fail ctx st bytes h
    rw [filter_sendRtp_processMessage]
    have hcond : (decide (0 < bytes.length) && !bytes.all (fun b => b = 0x7f)) = false := by
      rcases h with h | h <;> simp [h]
    simp only [processMessageRaw, hcond, Bool.false_eq_true, if_false]
    simp [isSendRtp]

/-- Witness for C5: a 1-byte non-silent delta on a fresh call is pushed
with the 800-byte silence prefix; on a call that already received audio it
is pushed bare; an all-0x7F delta is skipped. -/
theorem C5_silence_padding_first_call_delta_witness :
    (processMessage {} {} {} (.responseAudioDelta (some [0]))).2.filter isSendRtp
      = [OAIAction.sendRtpPacket (silencePrefixBytes 100 ++ [0])] ∧
    (processMessage {} {} { totalDeltaBytes := 1 }
        (.responseAudioDelta (some [1]))).2.filter isSendRtp
      = [OAIAction.sendRtpPacket [1]] ∧
    (processMessage {} {} {} (.responseAudioDelta (some [0x7f, 0x7f]))).2.filter isSendRtp
      = [] := by
  refine ⟨?_, ?_, ?_⟩
  · have h := C5_silence_padding_first_call_delta.1 {} {} {} [0]
      (by decide) (by decide) (by decide) (by decide)
    rw [h]; rfl
  · have h := C5_silence_padding_first_call_delta.1 {} {} { totalDeltaBytes := 1 } [1]
      (by decide) (by decide) (by decide) (by decide)
    rw [h]; rfl
  · exact C5_silence_padding_first_call_delta.2.1 {} {} {} [0x7f, 0x7f] (Or.inr (by decide))

set_option maxRecDepth 4000 in
/-- Counterexample to C5 as stated: after a first response (one delta of
one byte, then `response.audio.done`), the first non-skipped delta of the
SECOND response is pushed bare — `totalDeltaBytes` is never reset per
response, so the silence prefix the claim requires for every response is
prepended only once per call. -/
theorem C5_counterexample :
    (runEvents {} {} {} [.responseAudioDelta (some [0]), .responseAudioDone,
        .responseAudioDelta (some [1])]).2
      = [OAIAction.sendRtpPacket (List.replicate 800 0x7f ++ [0]),
         OAIAction.sendRtpPacket [1]] ∧
    OAIAction.sendRtpPacket (List.replicate 800 0x7f ++ [1]) ∉
      (runEvents {} {} {} [.responseAudioDelta (some [0]), .responseAudioDone,
        .responseAudioDelta (some [1])]).2 := by
  constructor
  · rfl
  · decide

/-- C6 (amended): a `conversation.item.created` event stops playback
(barge-in) whenever the item carries a truthy `id` AND role `user` and a
stream handler exists; an item without an id is ignored. -/
theorem C6_user_item_stops_playback (fail : ExtFail) (ctx : OAICtx) (st : OAIState)
    (i : Option String) (hid : jsTruthyStr i = true) (hsh : ctx.hasStreamHandler = true) :
    OAIAction.stopPlayback ∈
      (processMessage fail ctx st
        (.conversationItemCreated (some { id := i, role := some "user" }))).2 := by
  have hcond : (jsTruthyStr i && jsTruthyStr (some "user")) = true := by
    rw [hid]; rfl
  unfold processMessage
  rcases hb : fail.stopPlaybackThrows with _ | _ <;>
  · simp only [processMessageRaw, hcond, if_true, hsh, hb]
    simp

/-- Witness for C6: an item with id `item1` and role `user` triggers
`stopPlayback` under the default context (stream handler present). -/
theorem C6_user_item_stops_playback_witness :
    OAIAction.stopPlayback ∈
      (processMessage {} {} {}
        (.conversationItemCreated (some { id := some "item1", role := some "user" }))).2 :=
  C6_user_item_stops_playback {} {} {} (some "item1") (by decide) (by decide)

/-- Counterexample to C6 as stated: an item with role `user` but no `id`
does not trigger `stopPlayback` even though a stream handler exists — the
source requires `response.item.id` to be truthy as well. -/
theorem C6_counterexample :
    OAIAction.stopPlayback ∉
      (processMessage {} {} {}
        (.conversationItemCreated (some { id := none, role := some "user" }))).2 := by
  decide

theorem pumpStep_take_drop (fail : ExtFail) (ctx : OAICtx) :
    ∀ (n : Nat) (st : OAIState) (q : List OAIEvent),
      (pumpStep fail ctx n st q).2.2.1 = q.take n ∧
      (pumpStep fail ctx n st q).2.1 = q.drop n := by
  intro n
  induction n with
  | zero => intro st q; exact ⟨rfl, rfl⟩
  | succ n ih =>
    intro st q
    cases q with
    | nil => simp [pumpStep]
    | cons ev rest =>
      simp only [pumpStep, List.take_succ_cons, List.drop_succ_cons]
      exact ⟨congrArg (fun l => ev :: l) (ih _ rest).1, (ih _ rest).2⟩

/-- C10: the wrapped handler never lets a failure escape — a throwing body
is absorbed and an error is logged — and one pump tick still processes up
to 5 queued events in order (the processed prefix and the remaining suffix
are exactly `take 5` / `drop 5` for every failure pattern). -/
theorem C10_pump_survives_handler_failures :
    (∀ (fail : ExtFail) (ctx : OAICtx) (st : OAIState) (q : List OAIEvent),
      (pumpTick fail ctx st q).2.2.1 = q.take 5 ∧
      (pumpTick fail ctx st q).2.1 = q.drop 5) ∧
    (∀ (fail : ExtFail) (ctx : OAICtx) (st : OAIState) (ev : OAIEvent),
      (processMessageRaw fail ctx st ev).2.2 = true →
      OAIAction.logError "Error processing message" ∈ (processMessage fail ctx st ev).2) := by
  constructor
  · intro fail ctx st q
    exact pumpStep_take_drop fail ctx 5 st q
  · intro fail ctx st ev h
    unfold processMessage
    rcases hr : processMessageRaw fail ctx st ev with ⟨s, acts, b⟩
    rw [hr] at h
    cases b
    · exact absurd h (by simp)
    · simp

/-- Witness for C10: a barge-in event whose `stopPlayback` call throws is
processed, the error is logged, and a following queued event is still
processed in order within the same tick. -/
theorem C10_pump_survives_handler_failures_witness :
    (pumpTick { stopPlaybackThrows := true } {} {}
        [.conversationItemCreated (some { id := some "i", role := some "user" }),
         .responseCreated]).2.2.1
      = [OAIEvent.conversationItemCreated (some { id := some "i", role := some "user" }),
         OAIEvent.responseCreated] ∧
    OAIAction.logError "Error processing message" ∈
      (processMessage { stopPlaybackThrows := true } {} {}
        (.conversationItemCreated (some { id := some "i", role := some "user" }))).2 := by
  constructor
  · have h := (C10_pump_survives_handler_failures.1 { stopPlaybackThrows := true } {} {}
      [.conversationItemCreated (some { id := some "i", role := some "user" }),
       .responseCreated]).1
    rw [h]
    rfl
  · exact C10_pump_survives_handler_failures.2 { stopPlaybackThrows := true } {} {}
      (.conversationItemCreated (some { id := some "i", role := some "user" })) (by decide)


theorem filter_ite_single (p : Eff → Bool) (e : Eff) (h : p e = false)
    (c : Prop) [Decidable c] :
    List.filter p (if c then [e] else []) = [] := by
  split <;> simp [h]

theorem filter_optEff (p : Eff → Bool) (g : String → Eff)
    (h : ∀ x, p (g x) = false) (o : Option String) :
    List.filter p (optEff g o) = [] := by
  cases o <;> simp [optEff, h]

theorem filter_optEffNat (p : Eff → Bool) (g : Nat → Eff)
    (h : ∀ x, p (g x) = false) (o : Option Nat) :
    List.filter p (optEffNat g o) = [] := by
  cases o <;> simp [optEffNat, h]

theorem cleanupBody_mem_cleaned (f : CleanupFail) (em : Bool) (st : CoreState)
    (cid r : String) :
    cid ∈ (cleanupBody f em st cid r).1.cleanedChannels := by
  unfold cleanupBody
  dsimp only
  split <;> exact List.mem_cons_self _ _

theorem countEmails_cleanupBody_le_one (f : CleanupFail) (em : Bool) (st : CoreState)
    (cid r : String) :
    countEmails (cleanupBody f em st cid r).2 ≤ 1 := by
  unfold cleanupBody
  dsimp only
  split
  · simp [countEmails]
  · simp only [countEmails, List.filter_append, List.length_append,
      filter_ite_single isEmailEff Eff.clearCallTimeout rfl,
      filter_ite_single isEmailEff Eff.streamEnd rfl,
      filter_ite_single isEmailEff Eff.wsCloseReq rfl,
      filter_ite_single isEmailEff (Eff.sipHangup cid) rfl,
      filter_ite_single isEmailEff (Eff.rxClose cid) rfl,
      filter_ite_single isEmailEff (Eff.txClose cid) rfl,
      filter_optEff isEmailEff Eff.extHangup (fun x => rfl),
      filter_optEff isEmailEff Eff.bridgeDestroy (fun x => rfl),
      filter_optEffNat isEmailEff Eff.releasePort (fun x => rfl),
      List.length_nil]
    split <;> simp [isEmailEff]

/-- C2: cleanup is idempotent per call id — a second `cleanupChannel`
invocation (after the first completed, or while one is in flight) changes
nothing and contributes no effects, and across both invocations at most
one transcript email is sent. -/
theorem C2_cleanup_idempotent (f1 f2 : CleanupFail) (em : Bool) (st : CoreState)
    (cid r1 r2 : String) :
    cleanupChannel f2 em (cleanupChannel f1 em st cid r1).1 cid r2
      = ((cleanupChannel f1 em st cid r1).1, []) ∧
    countEmails ((cleanupChannel f1 em st cid r1).2
      ++ (cleanupChannel f2 em (cleanupChannel f1 em st cid r1).1 cid r2).2) ≤ 1 := by
  by_cases h1 : cid ∈ st.cleanedChannels
  · have e1 : cleanupChannel f1 em st cid r1 = (st, []) := by
      unfold cleanupChannel; rw [if_pos h1]
    have e2 : cleanupChannel f2 em st cid r2 = (st, []) := by
      unfold cleanupChannel; rw [if_pos h1]
    rw [e1]
    rw [show (st, ([] : List Eff)).1 = st from rfl, e2]
    exact ⟨rfl, by simp [countEmails]⟩
  · by_cases h2 : cid ∈ st.cleanupInFlight
    · have e1 : cleanupChannel f1 em st cid r1 = (st, []) := by
        unfold cleanupChannel; rw [if_neg h1, if_pos h2]
      have e2 : cleanupChannel f2 em st cid r2 = (st, []) := by
        unfold cleanupChannel; rw [if_neg h1, if_pos h2]
      rw [e1]
      rw [show (st, ([] : List Eff)).1 = st from rfl, e2]
      exact ⟨rfl, by simp [countEmails]⟩
    · have e1 : cleanupChannel f1 em st cid r1 = cleanupBody f1 em st cid r1 := by
        unfold cleanupChannel; rw [if_neg h1, if_neg h2]
      have hmem : cid ∈ (cleanupBody f1 em st cid r1).1.cleanedChannels :=
        cleanupBody_mem_cleaned f1 em st cid r1
      have e2 : cleanupChannel f2 em (cleanupBody f1 em st cid r1).1 cid r2
          = ((cleanupBody f1 em st cid r1).1, []) := by
        unfold cleanupChannel; rw [if_pos hmem]
      rw [e1, e2]
      refine ⟨rfl, ?_⟩
      rw [countEmails_append]
      have hb := countEmails_cleanupBody_le_one f1 em st cid r1
      have hnil : countEmails ((cleanupBody f1 em st cid r1).1, ([] : List Eff)).2 = 0 := rfl
      omega

theorem tryContinue_filter_no_hangup (ok : String → Bool) (q s : String) :
    ∀ l : List String, (∃ c ∈ l, ok c = true) →
      (tryContinueContexts ok q s l).filter isSipHangupEff = [] := by
  intro l
  induction l with
  | nil =>
    rintro ⟨c, hc, _⟩
    exact absurd hc (List.not_mem_nil c)
  | cons a t ih =>
    rintro ⟨c, hc, hok⟩
    unfold tryContinueContexts
    by_cases ha : ok a = true
    · rw [if_pos ha]; rfl
    · rw [if_neg ha]
      have hrest : ∃ c ∈ t, ok c = true := by
        rcases List.mem_cons.mp hc with hc | hc
        · exact absurd (hc ▸ hok) ha
        · exact ⟨c, hc, hok⟩
      simp only [List.filter_cons]
      rw [show isSipHangupEff (Eff.continueDialplanFailed a q) = false from rfl]
      simp only [Bool.false_eq_true, if_false]
      exact ih hrest

/-- C3 (amended): whenever a call's `redirecting` flag is set, the cleanup
sequence emits neither a SIP-leg hangup nor a transcript email; and
`redirectToQueue` itself hangs up the SIP leg only as a last resort — when
some dialplan context succeeds (`ext-queues` is always tried) no hangup is
emitted. -/
theorem C3_redirecting_skips_sip_hangup_and_email (f : CleanupFail) (em : Bool)
    (st : CoreState) (cid r : String) (d : ChData)
    (hlk : st.sipMap.lookup cid = some d) (hred : d.redirecting = true) :
    ((cleanupChannel f em st cid r).2.filter
        (fun e => isSipHangupEff e || isEmailEff e) = []) ∧
    (∀ (cfg : RedirectCfg) (continueOk : String → Bool) (st2 : CoreState) (cid2 : String),
      continueOk "ext-queues" = true →
      (redirectToQueue cfg continueOk st2 cid2).2.filter isSipHangupEff = []) := by
  constructor
  · unfold cleanupChannel
    split
    · rfl
    · split
      · rfl
      · unfold cleanupBody
        rw [hlk]
        dsimp only [Option.getD_some]
        split
        · rfl
        · have hp : ∀ e : Eff, isEmailEff e = false →
              ((fun e => isSipHangupEff e || isEmailEff e) e) = (isSipHangupEff e) := by
            intro e he; simp [he]
          have hcd : ({ d with cleaned := true, hasCleanupTimer := false } : ChData).redirecting
              = true := hred
          simp only [List.filter_append,
            filter_ite_single (fun e => isSipHangupEff e || isEmailEff e)
              Eff.clearCallTimeout rfl,
            filter_ite_single (fun e => isSipHangupEff e || isEmailEff e)
              Eff.streamEnd rfl,
            filter_ite_single (fun e => isSipHangupEff e || isEmailEff e)
              Eff.wsCloseReq rfl,
            filter_ite_single (fun e => isSipHangupEff e || isEmailEff e)
              (Eff.rxClose cid) rfl,
            filter_ite_single (fun e => isSipHangupEff e || isEmailEff e)
              (Eff.txClose cid) rfl,
            filter_optEff (fun e => isSipHangupEff e || isEmailEff e)
              Eff.extHangup (fun x => rfl),
            filter_optEff (fun e => isSipHangupEff e || isEmailEff e)
              Eff.bridgeDestroy (fun x => rfl),
            filter_optEffNat (fun e => isSipHangupEff e || isEmailEff e)
              Eff.releasePort (fun x => rfl),
            hcd, Bool.not_true, Bool.false_and, Bool.and_false]
          simp [hred]
  · intro cfg continueOk st2 cid2 hok
    unfold redirectToQueue
    dsimp only
    split
    · rfl
    · split
      · rfl
      · split
        · rfl
        · simp only [List.filter_append,
            filter_ite_single isSipHangupEff Eff.streamEnd rfl,
            filter_ite_single isSipHangupEff Eff.wsCloseReq rfl,
            filter_ite_single isSipHangupEff (Eff.rxClose cid2) rfl,
            filter_ite_single isSipHangupEff (Eff.txClose cid2) rfl,
            filter_optEff isSipHangupEff Eff.extHangup (fun x => rfl),
            filter_optEff isSipHangupEff Eff.bridgeDestroy (fun x => rfl),
            filter_optEffNat isSipHangupEff Eff.releasePort (fun x => rfl)]
          rw [tryContinue_filter_no_hangup continueOk _ cid2 _
            ⟨"ext-queues", by simp, hok⟩]
          simp

/-- Witness for C3: on a call already marked `redirecting`, cleanup emits
no SIP hangup and no email; a redirect whose `ext-queues` continuation
succeeds emits no hangup either. -/
theorem C3_redirecting_skips_sip_hangup_and_email_witness :
    ((cleanupChannel {} true fixtureRedirCore "C1" "r").2.filter
        (fun e => isSipHangupEff e || isEmailEff e) = []) ∧
    ((redirectToQueue { redirectionQueue := some "3000" } (fun c => c = "ext-queues")
        fixtureCore "C1").2.filter isSipHangupEff = []) := by
  constructor
  · exact (C3_redirecting_skips_sip_hangup_and_email {} true fixtureRedirCore "C1" "r"
      fixtureRedirCall (by decide) (by decide)).1
  · exact (C3_redirecting_skips_sip_hangup_and_email {} true fixtureRedirCore "C1" "r"
      fixtureRedirCall (by decide) (by decide)).2
      { redirectionQueue := some "3000" } (fun c => c = "ext-queues") fixtureCore "C1"
      (by decide)

/-- Counterexample to C3 as stated: when every `continueInDialplan` context
fails, `redirectToQueue` hangs up the SIP leg as a last resort even though
it set `redirecting` at the start of the very same handoff — so a call
whose redirecting flag is set CAN have its SIP leg hung up by the core. -/
theorem C3_counterexample :
    Eff.sipHangup "C1" ∈ (redirectToQueue { redirectionQueue := some "3000" }
        (fun _ => false) fixtureCore "C1").2 ∧
    (((redirectToQueue { redirectionQueue := some "3000" } (fun _ => false)
          fixtureCore "C1").1.sipMap.lookup "C1").getD {}).redirecting = true := by
  exact ⟨by decide, by decide⟩

theorem mark_compute_ext (graceMs : Nat) (st : CoreState) (ch : Channel)
    (src sipId : String) (d : ChData)
    (hname : isExternalMediaChannel ch.name = true)
    (hmem : ch.id ∉ st.ignoreExtEvents)
    (hres : resolveSipIdForChannel st ch = some sipId)
    (hnc : sipId ∉ st.cleanedChannels)
    (hlk : st.sipMap.lookup sipId = some d)
    (hncl : d.cleaned = false) :
    markChannelEndedAndMaybeCleanup graceMs st ch src =
      if d.sipEnded = true then
        ({ st with sipMap := alistSet sipId { d with extEnded := true } st.sipMap },
         .cleanupNow sipId (src ++ ":both-ended"))
      else
        ({ st with
            sipMap := alistSet sipId { d with extEnded := true, hasCleanupTimer := true }
              st.sipMap },
         .graceArmed sipId graceMs (src ++ ":grace-timeout")) := by
  unfold markChannelEndedAndMaybeCleanup
  dsimp only
  rw [if_neg (by simp [hmem]), hres]
  dsimp only
  rw [if_neg hnc, hlk]
  dsimp only [Option.getD_some]
  rw [if_neg (by simp [hncl]), if_pos hname]
  dsimp only
  rw [Bool.and_true]

theorem mark_compute_sip (graceMs : Nat) (st : CoreState) (ch : Channel)
    (src : String) (d : ChData)
    (hname : isExternalMediaChannel ch.name = false)
    (hnc : ch.id ∉ st.cleanedChannels)
    (hlk : st.sipMap.lookup ch.id = some d)
    (hncl : d.cleaned = false) :
    markChannelEndedAndMaybeCleanup graceMs st ch src =
      if d.extEnded = true then
        ({ st with sipMap := alistSet ch.id { d with sipEnded := true } st.sipMap },
         .cleanupNow ch.id (src ++ ":both-ended"))
      else
        ({ st with
            sipMap := alistSet ch.id { d with sipEnded := true, hasCleanupTimer := true }
              st.sipMap },
         .graceArmed ch.id graceMs (src ++ ":grace-timeout")) := by
  have hres : resolveSipIdForChannel st ch = some ch.id := by
    unfold resolveSipIdForChannel
    rw [hname]
    rfl
  unfold markChannelEndedAndMaybeCleanup
  dsimp only
  have hg1 : ¬((isExternalMediaChannel ch.name
      && decide (ch.id ∈ st.ignoreExtEvents)) = true) := by
    simp [hname]
  rw [if_neg hg1, hres]
  dsimp only
  rw [if_neg hnc, hlk]
  dsimp only [Option.getD_some]
  have hg2 : ¬(d.cleaned = true) := by simp [hncl]
  have hg3 : ¬(isExternalMediaChannel ch.name = true) := by simp [hname]
  rw [if_neg hg2, if_neg hg3]
  dsimp only
  rw [Bool.true_and]

/-- C4: for a leg-end event on a registered, not-yet-cleaned call, the
matching end-flag is set; if both flags are then set, cleanup runs
immediately with reason `<event>:both-ended`; otherwise the single grace
timer is (re)armed with CLEANUP_GRACE_MS (default 1500 ms) and its expiry
reason is `<event>:grace-timeout`. -/
theorem C4_leg_end_flags_and_grace (graceEnv : Option Nat) (st : CoreState)
    (ch : Channel) (src sipId : String) (d : ChData)
    (hres : resolveSipIdForChannel st ch = some sipId)
    (hlate : ¬(isExternalMediaChannel ch.name = true ∧ ch.id ∈ st.ignoreExtEvents))
    (hnc : sipId ∉ st.cleanedChannels)
    (hlk : st.sipMap.lookup sipId = some d)
    (hncl : d.cleaned = false) :
    (isExternalMediaChannel ch.name = true →
      ((((markChannelEndedAndMaybeCleanup (cleanupGraceMs graceEnv) st ch
          src).1.sipMap.lookup sipId).getD {}).extEnded = true ∧
       (d.sipEnded = true →
         (markChannelEndedAndMaybeCleanup (cleanupGraceMs graceEnv) st ch src).2
           = MarkResult.cleanupNow sipId (src ++ ":both-ended")) ∧
       (d.sipEnded = false →
         (markChannelEndedAndMaybeCleanup (cleanupGraceMs graceEnv) st ch src).2
           = MarkResult.graceArmed sipId (cleanupGraceMs graceEnv)
               (src ++ ":grace-timeout") ∧
         (((markChannelEndedAndMaybeCleanup (cleanupGraceMs graceEnv) st ch
             src).1.sipMap.lookup sipId).getD {}).hasCleanupTimer = true))) ∧
    (isExternalMediaChannel ch.name = false →
      ((((markChannelEndedAndMaybeCleanup (cleanupGraceMs graceEnv) st ch
          src).1.sipMap.lookup sipId).getD {}).sipEnded = true ∧
       (d.extEnded = true →
         (markChannelEndedAndMaybeCleanup (cleanupGraceMs graceEnv) st ch src).2
           = MarkResult.cleanupNow sipId (src ++ ":both-ended")) ∧
       (d.extEnded = false →
         (markChannelEndedAndMaybeCleanup (cleanupGraceMs graceEnv) st ch src).2
           = MarkResult.graceArmed sipId (cleanupGraceMs graceEnv)
               (src ++ ":grace-timeout") ∧
         (((markChannelEndedAndMaybeCleanup (cleanupGraceMs graceEnv) st ch
             src).1.sipMap.lookup sipId).getD {}).hasCleanupTimer = true))) ∧
    cleanupGraceMs none = 1500 := by
  refine ⟨?_, ?_, rfl⟩
  · intro hext
    have hmem : ch.id ∉ st.ignoreExtEvents := fun hm => hlate ⟨hext, hm⟩
    rw [mark_compute_ext (cleanupGraceMs graceEnv) st ch src sipId d hext hmem hres hnc
      hlk hncl]
    by_cases hs : d.sipEnded = true
    · rw [if_pos hs]
      refine ⟨?_, fun _ => rfl, fun hcontra => ?_⟩
      · dsimp only
        rw [lookup_alistSet]
        simp
      · rw [hcontra] at hs
        exact absurd hs (by simp)
    · rw [if_neg hs]
      refine ⟨?_, fun hcontra => absurd hcontra hs, fun _ => ⟨rfl, ?_⟩⟩
      · dsimp only
        rw [lookup_alistSet]
        simp
      · dsimp only
        rw [lookup_alistSet]
        simp
  · intro hext
    have hid : sipId = ch.id := by
      unfold resolveSipIdForChannel at hres
      rw [hext] at hres
      simp at hres
      exact hres.symm
    subst hid
    rw [mark_compute_sip (cleanupGraceMs graceEnv) st ch src d hext hnc hlk hncl]
    by_cases hs : d.extEnded = true
    · rw [if_pos hs]
      refine ⟨?_, fun _ => rfl, fun hcontra => ?_⟩
      · dsimp only
        rw [lookup_alistSet]
        simp
      · rw [hcontra] at hs
        exact absurd hs (by simp)
    · rw [if_neg hs]
      refine ⟨?_, fun hcontra => absurd hcontra hs, fun _ => ⟨rfl, ?_⟩⟩
      · dsimp only
        rw [lookup_alistSet]
        simp
      · dsimp only
        rw [lookup_alistSet]
        simp

/-- Witness for C4: a SIP-leg `StasisEnd` on a live call arms the 1500 ms
grace timer with reason `StasisEnd:grace-timeout`; the external leg ending
afterwards (both flags set) triggers immediate cleanup with reason
`StasisEnd:both-ended`. -/
theorem C4_leg_end_flags_and_grace_witness :
    (markChannelEndedAndMaybeCleanup (cleanupGraceMs none) fixtureCore
        { id := "C1", name := "PJSIP/100" } "StasisEnd").2
      = MarkResult.graceArmed "C1" 1500 "StasisEnd:grace-timeout" ∧
    (markChannelEndedAndMaybeCleanup (cleanupGraceMs none) fixtureSipEndedCore
        { id := "E1", name := "UnicastRTP/127.0.0.1" } "StasisEnd").2
      = MarkResult.cleanupNow "C1" "StasisEnd:both-ended" := by
  constructor
  · have h := C4_leg_end_flags_and_grace none fixtureCore
      { id := "C1", name := "PJSIP/100" } "StasisEnd" "C1" fixtureCall
      (by decide) (by decide) (by decide) (by decide) (by decide)
    exact ((h.2.1 (by decide)).2.2 (by decide)).1
  · have h := C4_leg_end_flags_and_grace none fixtureSipEndedCore
      { id := "E1", name := "UnicastRTP/127.0.0.1" } "StasisEnd" "C1"
      { fixtureCall with sipEnded := true }
      (by decide) (by decide) (by decide) (by decide) (by decide)
    exact (h.1 (by decide)).2.1 (by decide)

/-- C7 (amended): every teardown step of cleanup wraps its own failures, so
for EVERY pattern of step failures the remaining steps still run: the RTP
port release is attempted, the external-leg map entries and the registry
entry are removed, the call is marked cleaned, and on a non-redirected call
with email enabled the email step is still attempted.  (Exception proved
false separately: a throwing receiver/sender `close()` skips that handler's
own map delete.) -/
theorem C7_teardown_steps_isolated (f : CleanupFail) (em : Bool) (st : CoreState)
    (cid r : String) (d : ChData) (p : Nat)
    (h1 : cid ∉ st.cleanedChannels) (h2 : cid ∉ st.cleanupInFlight)
    (hlk : st.sipMap.lookup cid = some d) (hc : d.cleaned = false)
    (hp : d.rtpPort = some p) :
    Eff.releasePort p ∈ (cleanupChannel f em st cid r).2 ∧
    (cleanupChannel f em st cid r).1.sipMap.lookup cid = none ∧
    (cleanupChannel f em st cid r).1.extMap.lookup cid = none ∧
    (∀ e, d.externalChannelId = some e →
      (cleanupChannel f em st cid r).1.extMap.lookup e = none) ∧
    cid ∈ (cleanupChannel f em st cid r).1.cleanedChannels ∧
    (em = true → d.redirecting = false →
      Eff.sendEmail cid (if d.callerId = "" then "unknown" else d.callerId) r
        ∈ (cleanupChannel f em st cid r).2) := by
  have heq : cleanupChannel f em st cid r = cleanupBody f em st cid r := by
    unfold cleanupChannel; rw [if_neg h1, if_neg h2]
  rw [heq]
  unfold cleanupBody
  rw [hlk]
  dsimp only [Option.getD_some]
  rw [if_neg (by simp [hc])]
  dsimp only
  refine ⟨?_, ?_, ?_, ?_, ?_, ?_⟩
  · simp only [List.mem_append]
    refine Or.inl (Or.inr ?_)
    rw [show ({ d with cleaned := true, hasCleanupTimer := false } : ChData).rtpPort
        = d.rtpPort from rfl, hp]
    exact List.mem_singleton.mpr rfl
  · rw [lookup_alistDel]
    simp
  · rw [show ({ d with cleaned := true, hasCleanupTimer := false } : ChData).externalChannelId
        = d.externalChannelId from rfl]
    cases hext : d.externalChannelId with
    | none =>
      rw [lookup_alistDel]
      simp
    | some e =>
      rw [lookup_alistDel]
      simp
  · intro e he
    rw [show ({ d with cleaned := true, hasCleanupTimer := false } : ChData).externalChannelId
        = d.externalChannelId from rfl, he]
    rw [lookup_alistDel]
    split
    · rfl
    · rw [lookup_alistDel]
      simp
  · exact List.mem_cons_self _ _
  · intro hem hnred
    simp only [List.mem_append]
    refine Or.inr ?_
    rw [show ({ d with cleaned := true, hasCleanupTimer := false } : ChData).redirecting
        = d.redirecting from rfl, hnred, hem]
    simp

/-- Witness for C7: on the fixture call with every failure flag set, the
port release and the email are still attempted, and the registry and
external map are purged. -/
theorem C7_teardown_steps_isolated_witness :
    Eff.releasePort 12000 ∈ (cleanupChannel
        { streamEndThrows := true, wsCloseThrows := true, extHangupThrows := true,
          bridgeDestroyThrows := true, sipHangupThrows := true, rxCloseThrows := true,
          txCloseThrows := true, releasePortThrows := true, emailThrows := true }
        true fixtureCore "C1" "r").2 ∧
    (cleanupChannel
        { streamEndThrows := true, wsCloseThrows := true, extHangupThrows := true,
          bridgeDestroyThrows := true, sipHangupThrows := true, rxCloseThrows := true,
          txCloseThrows := true, releasePortThrows := true, emailThrows := true }
        true fixtureCore "C1" "r").1.sipMap.lookup "C1" = none ∧
    Eff.sendEmail "C1" "100" "r" ∈ (cleanupChannel
        { streamEndThrows := true, wsCloseThrows := true, extHangupThrows := true,
          bridgeDestroyThrows := true, sipHangupThrows := true, rxCloseThrows := true,
          txCloseThrows := true, releasePortThrows := true, emailThrows := true }
        true fixtureCore "C1" "r").2 := by
  have h := C7_teardown_steps_isolated
    { streamEndThrows := true, wsCloseThrows := true, extHangupThrows := true,
      bridgeDestroyThrows := true, sipHangupThrows := true, rxCloseThrows := true,
      txCloseThrows := true, releasePortThrows := true, emailThrows := true }
    true fixtureCore "C1" "r" fixtureCall 12000
    (by decide) (by decide) (by decide) (by decide) (by decide)
  refine ⟨h.1, h.2.1, ?_⟩
  have := h.2.2.2.2.2 rfl (by decide)
  simpa using this

/-- Counterexample to C7 as stated: when the RTP receiver `close()` throws,
the `rtpReceivers.delete(channelId)` that follows it inside the same
`try` block is skipped, so that map is NOT purged — the (closed) handler
entry survives cleanup, while all later steps still ran. -/
theorem C7_counterexample :
    ((cleanupChannel { rxCloseThrows := true } true fixtureCore "C1" "r").1.rtpReceivers.lookup
        "C1") = some { isOpen := false } ∧
    ((cleanupChannel {} true fixtureCore "C1" "r").1.rtpReceivers.lookup "C1") = none := by
  exact ⟨by decide, by decide⟩

end AstOpenAI
